import Mathlib

/-
Verification of the module-metadata extraction core of pulp_rpm
(src/pulp_rpm/app/modulemd.py): `parse_modulemd` (stream extraction) and
`parse_defaults` (default-stream extraction), shallowly embedded in Lean 4.

The libmodulemd index (`gi.repository.Modulemd`) and the pulpcore Artifact
storage layer are external collaborators; they are modelled at the interface
the spec describes (section 3 and section 6 of the spec): an in-memory module
index with streams, runtime-dependency declarations and default-stream
declarations, a text codec (`dump_to_string` / re-parse) that round-trips the
index content, and an artifact constructor that stores the bytes and computes
their content digest.

Python dicts are modelled as insertion-ordered association lists with
unique keys (assignment to an existing key updates it in place, a new key is
appended); `json.dumps` of a list/dict is modelled by the list/association
list itself, since it is an order- and duplicate-preserving injective
serialization.
-/

/-- A runtime dependency declaration of a module stream
(`Modulemd.Dependencies`): an ordered map from required-module name to the
list of acceptable stream names, as returned by `get_runtime_modules` /
`get_runtime_streams`. -/
structure Dependency where
  runtime : List (String × List String)
deriving DecidableEq, Repr

/-- A module stream (`Modulemd.ModuleStream`), with the properties read by
`parse_modulemd`: `s.props.module_name`, `s.props.stream_name`,
`s.props.version`, `s.props.context`, `s.props.arch`,
`s.get_rpm_artifacts()`, `s.get_dependencies()`.  A stream held by an index
always has a module name and a stream name; `context` and `arch` are
nullable GObject string properties, `version` is an unsigned integer. -/
structure ModuleStream where
  module_name : String
  stream_name : String
  version : Nat
  context : Option String
  arch : Option String
  rpm_artifacts : List String
  stream_dependencies : List Dependency
deriving DecidableEq, Repr

/-- A module-defaults declaration (`Modulemd.Defaults`): the owning module's
name, the chosen default stream, and the per-stream default profiles (each
profile carrying its default package names), queried through
`get_default_stream` and `get_default_profiles_for_stream`. -/
structure Defaults where
  module_name : String
  default_stream : String
  profiles : List (String × List (String × List String))
deriving DecidableEq, Repr

/-- A module in the index (`Modulemd.MmdModule`): name, streams in the index's
native order, and an optional defaults declaration (`get_defaults`). -/
structure MmdModule where
  name : String
  streams : List ModuleStream
  defaults : Option Defaults
deriving DecidableEq, Repr

/-- The module index (`Modulemd.ModuleIndex`).  `default_stream_keys` models
the key set of `get_default_streams()`: the module names the index reports
as having a default-stream declaration.  It is kept as a separate component
because the source queries it separately from `get_module(...).get_defaults()`
and guards the latter defensively. -/
structure ModuleIndex where
  modules : List MmdModule
  default_stream_keys : List String
deriving DecidableEq, Repr

/-- The empty index, `Modulemd.ModuleIndex.new()`. -/
def ModuleIndex.new : ModuleIndex := ⟨[], []⟩

/-- `module_index.get_module(name)`: `None` when no module has that name. -/
def get_module (idx : ModuleIndex) (name : String) : Option MmdModule :=
  idx.modules.find? (fun m => m.name == name)

/-- `module.get_all_streams()`: the module's streams in native index order. -/
def get_all_streams (m : MmdModule) : List ModuleStream := m.streams

/-- `module.get_module_name()`. -/
def get_module_name (m : MmdModule) : String := m.name

/-- `module.get_defaults()`: `None` when the module carries no defaults. -/
def get_defaults (m : MmdModule) : Option Defaults := m.defaults

/-- The keys of `module_index.get_default_streams()`. -/
def get_default_streams (idx : ModuleIndex) : List String :=
  idx.default_stream_keys

/-- First-match association-list lookup (Python dict read). -/
def lookupD : List (String × List String) → String → Option (List String)
  | [], _ => none
  | p :: rest, k => if p.1 = k then some p.2 else lookupD rest k

/-- `dep.get_runtime_modules()`: the required-module names of one
dependency declaration. -/
def get_runtime_modules (dep : Dependency) : List String :=
  dep.runtime.map Prod.fst

/-- `dep.get_runtime_streams(module)`: the acceptable stream names this
declaration records for a required module. -/
def get_runtime_streams (dep : Dependency) (m : String) : List String :=
  (lookupD dep.runtime m).getD []

/-- `defaults.get_default_stream()`. -/
def get_default_stream (d : Defaults) : String := d.default_stream

/-- Profile lookup scoped to one stream. -/
def lookupProfiles :
    List (String × List (String × List String)) → String →
      List (String × List String)
  | [], _ => []
  | p :: rest, k => if p.1 = k then p.2 else lookupProfiles rest k

/-- `defaults.get_default_profiles_for_stream(stream)`: the named profiles
(with their default package names) declared for exactly that stream;
profiles of other streams are invisible. -/
def get_default_profiles_for_stream (d : Defaults) (stream : String) :
    List (String × List String) :=
  lookupProfiles d.profiles stream

/-- Adds a stream to the module of the same name, creating that module when
absent (`module_index.add_module_stream(stream)`). -/
def add_stream_in : List MmdModule → ModuleStream → List MmdModule
  | [], s => [⟨s.module_name, [s], none⟩]
  | m :: rest, s =>
    if m.name = s.module_name then
      { m with streams := m.streams ++ [s] } :: rest
    else
      m :: add_stream_in rest s

/-- `module_index.add_module_stream(stream)`. -/
def add_module_stream (idx : ModuleIndex) (s : ModuleStream) : ModuleIndex :=
  { idx with modules := add_stream_in idx.modules s }

/-- Attaches a defaults declaration to the module of the same name, creating
that module when absent (`module_index.add_defaults(defaults)`). -/
def set_defaults_in : List MmdModule → Defaults → List MmdModule
  | [], d => [⟨d.module_name, [], some d⟩]
  | m :: rest, d =>
    if m.name = d.module_name then
      { m with defaults := some d } :: rest
    else
      m :: set_defaults_in rest d

/-- `module_index.add_defaults(defaults)`. -/
def add_defaults (idx : ModuleIndex) (d : Defaults) : ModuleIndex :=
  { modules := set_defaults_in idx.modules d
    default_stream_keys :=
      if d.module_name ∈ idx.default_stream_keys then idx.default_stream_keys
      else idx.default_stream_keys ++ [d.module_name] }

/-- One item of a serialized module-metadata document: a stream definition
or a defaults declaration. -/
inductive DocItem where
  | streamItem : ModuleStream → DocItem
  | defaultsItem : Defaults → DocItem
deriving DecidableEq, Repr

/-- Modelled from the spec: the external codec's writer
(`module_index.dump_to_string()`).  The canonical document lists, module by
module in index order, the module's stream definitions followed by its
defaults declaration; document equality models byte equality of the
serialized text. -/
def dump_to_string (idx : ModuleIndex) : List DocItem :=
  idx.modules.foldr
    (fun m acc =>
      m.streams.map DocItem.streamItem ++
        (match m.defaults with
         | some d => [DocItem.defaultsItem d]
         | none => []) ++ acc)
    []

/-- Modelled from the spec: the external codec's reader, rebuilding an index
from a serialized document by inserting each item in order. -/
def parse_document (doc : List DocItem) : ModuleIndex :=
  doc.foldl
    (fun idx item =>
      match item with
      | DocItem.streamItem s => add_module_stream idx s
      | DocItem.defaultsItem d => add_defaults idx d)
    ModuleIndex.new

/-- Encoding of a string into numbers, for digesting. -/
def encodeString (s : String) : List Nat :=
  s.data.map Char.toNat ++ [1114112]

/-- Encoding of an optional string. -/
def encodeOptString : Option String → List Nat
  | none => [1114113]
  | some s => 1114114 :: encodeString s

/-- Encoding of a list of strings. -/
def encodeStrList (l : List String) : List Nat :=
  l.foldr (fun s acc => encodeString s ++ acc) [1114115]

/-- Encoding of one dependency declaration. -/
def encodeDep (dep : Dependency) : List Nat :=
  dep.runtime.foldr (fun p acc => encodeString p.1 ++ encodeStrList p.2 ++ acc)
    [1114116]

/-- Encoding of a stream definition. -/
def encodeStream (s : ModuleStream) : List Nat :=
  encodeString s.module_name ++ encodeString s.stream_name ++ [s.version] ++
    encodeOptString s.context ++ encodeOptString s.arch ++
    encodeStrList s.rpm_artifacts ++
    s.stream_dependencies.foldr (fun d acc => encodeDep d ++ acc) [1114117]

/-- Encoding of the per-stream profiles of a defaults declaration. -/
def encodeProfiles
    (ps : List (String × List (String × List String))) : List Nat :=
  ps.foldr
    (fun p acc =>
      encodeString p.1 ++
        p.2.foldr (fun q a => encodeString q.1 ++ encodeStrList q.2 ++ a)
          [1114118] ++ acc)
    [1114119]

/-- Encoding of a defaults declaration. -/
def encodeDefaults (d : Defaults) : List Nat :=
  encodeString d.module_name ++ encodeString d.default_stream ++
    encodeProfiles d.profiles

/-- Encoding of one document item. -/
def encodeDocItem : DocItem → List Nat
  | DocItem.streamItem s => 1 :: encodeStream s
  | DocItem.defaultsItem d => 2 :: encodeDefaults d

/-- Encoding of a whole document into its byte-level content. -/
def encodeDoc (doc : List DocItem) : List Nat :=
  doc.foldr (fun it acc => encodeDocItem it ++ acc) []

/-- Modelled from the spec: the content digest (sha256) of a canonical
document's bytes — a deterministic pure function of the document, here a
rolling hash of its encoding reduced modulo 2 ^ 256. -/
def sha256_of (doc : List DocItem) : Nat :=
  (encodeDoc doc).foldl (fun h b => (h * 1099511628211 + b + 1) % (2 ^ 256)) 0

/-- Modelled from the spec: the pulpcore Artifact reference returned by the
storage collaborator — the stored file content and its sha256 content
digest. -/
structure Artifact where
  file : List DocItem
  sha256 : Nat
deriving DecidableEq, Repr

/-- Modelled from the spec: `_create_snippet(snippet_string)` — writes the
snippet to storage and returns the Artifact produced by
`Artifact.init_and_validate`, whose sha256 is the content digest of the
snippet's bytes. -/
def _create_snippet (snippet_string : List DocItem) : Artifact :=
  ⟨snippet_string, sha256_of snippet_string⟩

/-- Python dict assignment `d[k] = v`: updates the first (unique) entry for
`k` in place, otherwise appends the new key at the end. -/
def dict_set :
    List (String × List String) → String → List String →
      List (String × List String)
  | [], k, v => [(k, v)]
  | p :: rest, k, v =>
    if p.1 = k then (k, v) :: rest else p :: dict_set rest k v

/-- The dependency-flattening inner loop of `parse_modulemd`: for one
dependency declaration, assign `dependencies[m] = dep.get_runtime_streams(m)`
for each required module `m` of the declaration, in order. -/
def flatten_dep (acc : List (String × List String)) (dep : Dependency) :
    List (String × List String) :=
  (get_runtime_modules dep).foldl
    (fun a m => dict_set a m (get_runtime_streams dep m)) acc

/-- The dependency flattening of `parse_modulemd`: iterate the declarations
returned by `s.get_dependencies()` in order, starting from an empty dict. -/
def flattenDeps (deps : List Dependency) : List (String × List String) :=
  deps.foldl flatten_dep []

/-- One extracted modulemd record of `parse_modulemd`: the dict built per
stream (NSVCA fields, artifacts, flattened dependencies) plus the snippet
artifact. -/
structure StreamRecord where
  name : String
  stream : String
  version : Nat
  context : Option String
  arch : Option String
  artifacts : List String
  dependencies : List (String × List String)
  artifact : Artifact
deriving DecidableEq, Repr

/-- The per-stream body of `parse_modulemd`'s loop: copy the NSVCA
properties verbatim, serialize the artifact list and the flattened
dependencies, build a fresh single-stream index, dump it and store the
snippet. -/
def streamRecordOf (s : ModuleStream) : StreamRecord :=
  { name := s.module_name
    stream := s.stream_name
    version := s.version
    context := s.context
    arch := s.arch
    artifacts := s.rpm_artifacts
    dependencies := flattenDeps s.stream_dependencies
    artifact :=
      _create_snippet (dump_to_string (add_module_stream ModuleIndex.new s)) }

/-- Failures of the extraction call.  `moduleNotFound` models the lookup
failure raised when `module_index.get_module(module)` returns `None` inside
`parse_modulemd`; `attributeError` models the same situation inside
`parse_defaults` (Python raises before `get_defaults` can be called). -/
inductive ExtractError where
  | moduleNotFound : String → ExtractError
  | attributeError : String → ExtractError
deriving DecidableEq, Repr

/-- `parse_modulemd(module_names, module_index)`: for each requested name in
order, resolve the module (failing the whole call when absent) and emit one
record per stream in native order.  The `Except` result models Python's
exception propagation: on failure no records are returned. -/
def parse_modulemd :
    List String → ModuleIndex → Except ExtractError (List StreamRecord)
  | [], _ => Except.ok []
  | n :: rest, idx =>
    match get_module idx n with
    | none => Except.error (ExtractError.moduleNotFound n)
    | some m =>
      match parse_modulemd rest idx with
      | Except.error e => Except.error e
      | Except.ok tail =>
        Except.ok ((get_all_streams m).map streamRecordOf ++ tail)

/-- One extracted modulemd-defaults record of `parse_defaults`. -/
structure DefaultRecord where
  module : String
  stream : String
  profiles : List (String × List String)
  digest : Nat
  artifact : Artifact
deriving DecidableEq, Repr

/-- The per-module body of `parse_defaults`' loop, reached when
`get_defaults()` is truthy: read the default stream and its profiles, build
a fresh defaults-only index, dump and store the snippet, and record the
artifact's sha256 as the digest. -/
def defaultRecordOf (m : MmdModule) (d : Defaults) : DefaultRecord :=
  let default_stream := get_default_stream d
  let default_profile := get_default_profiles_for_stream d default_stream
  let artifact :=
    _create_snippet (dump_to_string (add_defaults ModuleIndex.new d))
  { module := get_module_name m
    stream := default_stream
    profiles := default_profile
    digest := artifact.sha256
    artifact := artifact }

/-- The loop of `parse_defaults` over the keys of `get_default_streams()`:
resolve each module (an absent module raises), skip silently when
`get_defaults()` is falsy, otherwise emit one record. -/
def parse_defaults_from :
    List String → ModuleIndex → Except ExtractError (List DefaultRecord)
  | [], _ => Except.ok []
  | n :: rest, idx =>
    match get_module idx n with
    | none => Except.error (ExtractError.attributeError n)
    | some m =>
      match get_defaults m with
      | none => parse_defaults_from rest idx
      | some d =>
        match parse_defaults_from rest idx with
        | Except.error e => Except.error e
        | Except.ok tail => Except.ok (defaultRecordOf m d :: tail)

/-- `parse_defaults(module_index)`. -/
def parse_defaults (idx : ModuleIndex) :
    Except ExtractError (List DefaultRecord) :=
  parse_defaults_from (get_default_streams idx) idx

/-- The last dependency declaration of the list that mentions a given
required module, if any (reading the list left to right, later declarations
shadow earlier ones). -/
def lastDeclFor : List Dependency → String → Option Dependency
  | [], _ => none
  | dep :: rest, m =>
    match lastDeclFor rest m with
    | some d => some d
    | none => if (lookupD dep.runtime m).isSome then some dep else none

/-- The streams `parse_modulemd` walks for one requested name (empty when
the name does not resolve). -/
def streams_of (idx : ModuleIndex) (n : String) : List ModuleStream :=
  match get_module idx n with
  | some m => get_all_streams m
  | none => []

/-- The record `parse_defaults` emits for one default-stream key: none when
the module's defaults object is falsy. -/
def defaultRecordFor (idx : ModuleIndex) (n : String) : Option DefaultRecord :=
  match get_module idx n with
  | some m => (get_defaults m).map (defaultRecordOf m)
  | none => none

lemma lookupD_dict_set (d : List (String × List String)) (k : String)
    (v : List String) (k' : String) :
    lookupD (dict_set d k v) k' = if k' = k then some v else lookupD d k' := by
  induction d with
  | nil =>
    simp only [dict_set, lookupD]
    by_cases h : k' = k
    · subst h; simp
    · rw [if_neg (fun hh => h hh.symm), if_neg h]
  | cons p rest ih =>
    simp only [dict_set]
    by_cases hp : p.1 = k
    · rw [if_pos hp]
      simp only [lookupD]
      by_cases hk : k' = k
      · subst hk
        rw [if_pos rfl, if_pos rfl]
      · rw [if_neg (fun hh : k = k' => hk hh.symm), if_neg hk]
        rw [if_neg (fun hh => hk (hh.symm.trans hp))]
    · rw [if_neg hp]
      simp only [lookupD]
      by_cases hpk : p.1 = k'
      · rw [if_pos hpk, if_neg (fun hh => hp (hpk.trans hh)), if_pos hpk]
      · rw [if_neg hpk, if_neg hpk, ih]

lemma lookupD_isSome_iff (l : List (String × List String)) (m : String) :
    (lookupD l m).isSome = true ↔ m ∈ l.map Prod.fst := by
  induction l with
  | nil => simp [lookupD]
  | cons p rest ih =>
    simp only [lookupD, List.map_cons, List.mem_cons]
    by_cases h : p.1 = m
    · simp [h, eq_comm]
    · rw [if_neg h]
      constructor
      · intro hh
        exact Or.inr (ih.mp hh)
      · intro hh
        cases hh with
        | inl he => exact absurd he.symm h
        | inr hm => exact ih.mpr hm

lemma lookupD_foldl_keys (dep : Dependency) (m : String) (ks : List String) :
    ∀ acc : List (String × List String),
      lookupD
          (ks.foldl (fun a k => dict_set a k (get_runtime_streams dep k)) acc)
          m =
        if m ∈ ks then some (get_runtime_streams dep m) else lookupD acc m := by
  induction ks with
  | nil => intro acc; simp
  | cons k ks' ih =>
    intro acc
    simp only [List.foldl_cons]
    rw [ih]
    by_cases hm : m ∈ ks'
    · simp [hm]
    · rw [if_neg hm, lookupD_dict_set]
      by_cases hk : m = k
      · subst hk; simp
      · simp [hk, hm]

lemma lookupD_flatten_dep (acc : List (String × List String))
    (dep : Dependency) (m : String) :
    lookupD (flatten_dep acc dep) m =
      if (lookupD dep.runtime m).isSome then some (get_runtime_streams dep m)
      else lookupD acc m := by
  unfold flatten_dep
  rw [lookupD_foldl_keys]
  by_cases h : m ∈ get_runtime_modules dep
  · rw [if_pos h, if_pos ((lookupD_isSome_iff dep.runtime m).mpr h)]
  · rw [if_neg h,
      if_neg (fun hh => h ((lookupD_isSome_iff dep.runtime m).mp hh))]

lemma lookupD_flattenDeps_from (m : String) (deps : List Dependency) :
    ∀ acc : List (String × List String),
      lookupD (deps.foldl flatten_dep acc) m =
        match lastDeclFor deps m with
        | some dep => some (get_runtime_streams dep m)
        | none => lookupD acc m := by
  induction deps with
  | nil => intro acc; simp [lastDeclFor]
  | cons dep rest ih =>
    intro acc
    simp only [List.foldl_cons, lastDeclFor]
    rw [ih]
    cases hl : lastDeclFor rest m with
    | some d => simp
    | none =>
      simp only
      rw [lookupD_flatten_dep]
      by_cases h : (lookupD dep.runtime m).isSome <;> simp [h]

/-- Claim C1: for every stream processed by extract_streams
(parse_modulemd), if the same required-module name appears in more than one
of the stream's dependency declarations, the flattened dependencies map
records only the stream-name list of the last declaration iterated
(overwrite, not union-merge). -/
theorem c1_dependency_overwrite (s : ModuleStream) (m : String)
    (dep : Dependency) (h : lastDeclFor s.stream_dependencies m = some dep) :
    lookupD (streamRecordOf s).dependencies m =
      some (get_runtime_streams dep m) := by
  show lookupD (flattenDeps s.stream_dependencies) m = _
  unfold flattenDeps
  rw [lookupD_flattenDeps_from, h]

/-- A dependency declaration naming platform with streams f30. -/
def exDep1 : Dependency := ⟨[("platform", ["f30"])]⟩

/-- A dependency declaration naming platform with streams f31, f32. -/
def exDep2 : Dependency := ⟨[("platform", ["f31", "f32"])]⟩

/-- A concrete stream carrying two dependency declarations that both name
platform. -/
def exStream : ModuleStream :=
  ⟨"nodejs", "10", 20190101, some "c1", some "x86_64",
    ["nodejs-0:10.16.3-1.module.x86_64"], [exDep1, exDep2]⟩

/-- Witness for C1 at the spec's concrete example: with declarations
listing platform as f30 and then as f31, f32, the flattened map records
f31, f32. -/
theorem c1_witness :
    lastDeclFor exStream.stream_dependencies "platform" = some exDep2 ∧
    lookupD (streamRecordOf exStream).dependencies "platform" =
      some ["f31", "f32"] := by
  constructor
  · decide
  · have h := c1_dependency_overwrite exStream "platform" exDep2 (by decide)
    have e : get_runtime_streams exDep2 "platform" = ["f31", "f32"] := by
      decide
    rw [e] at h
    exact h

lemma mem_parse_modulemd (names : List String) (idx : ModuleIndex) :
    ∀ rs : List StreamRecord, parse_modulemd names idx = Except.ok rs →
      ∀ r ∈ rs, ∃ s : ModuleStream, r = streamRecordOf s := by
  induction names with
  | nil =>
    intro rs h r hr
    simp only [parse_modulemd] at h
    rw [← Except.ok.inj h] at hr
    exact absurd hr (List.not_mem_nil r)
  | cons n rest ih =>
    intro rs h r hr
    simp only [parse_modulemd] at h
    cases hm : get_module idx n with
    | none => rw [hm] at h; exact absurd h (by simp)
    | some m =>
      rw [hm] at h
      cases hp : parse_modulemd rest idx with
      | error e => rw [hp] at h; exact absurd h (by simp)
      | ok tail =>
        rw [hp] at h
        rw [← Except.ok.inj h] at hr
        rcases List.mem_append.mp hr with hmem | hmem
        · rcases List.mem_map.mp hmem with ⟨s, _, hs⟩
          exact ⟨s, hs.symm⟩
        · exact ih tail hp r hmem

lemma parse_document_snippet (s : ModuleStream) :
    parse_document (streamRecordOf s).artifact.file =
      ⟨[⟨s.module_name, [s], none⟩], []⟩ := rfl

/-- Claim C2: for every StreamRecord r produced by extract_streams,
re-parsing r's canonical document bytes yields an index holding exactly one
module, which holds exactly one stream, carries no defaults declaration and
registers no default-stream key, and whose one stream's NSVCA equals r's
fields exactly — no sibling streams and no defaults from the source index
leak in. -/
theorem c2_isolation (names : List String) (idx : ModuleIndex)
    (rs : List StreamRecord) (r : StreamRecord)
    (h : parse_modulemd names idx = Except.ok rs) (hr : r ∈ rs) :
    ∃ st : ModuleStream,
      (parse_document r.artifact.file).modules =
        [⟨st.module_name, [st], none⟩] ∧
      (parse_document r.artifact.file).default_stream_keys = [] ∧
      st.module_name = r.name ∧ st.stream_name = r.stream ∧
      st.version = r.version ∧ st.context = r.context ∧ st.arch = r.arch := by
  obtain ⟨s, rfl⟩ := mem_parse_modulemd names idx rs h r hr
  exact ⟨s, rfl, rfl, rfl, rfl, rfl, rfl, rfl⟩

/-- A concrete module holding the example stream. -/
def exModule : MmdModule := ⟨"nodejs", [exStream], none⟩

/-- A concrete index holding the example module and no defaults keys. -/
def exIdx : ModuleIndex := ⟨[exModule], []⟩

/-- Witness for C2: the snippet of the concrete record re-parses to exactly
one module with exactly one stream, no defaults and no default-stream keys,
with the stream's NSVCA matching the record. -/
theorem c2_witness :
    parse_modulemd ["nodejs"] exIdx = Except.ok [streamRecordOf exStream] ∧
    ∃ st : ModuleStream,
      (parse_document (streamRecordOf exStream).artifact.file).modules =
        [⟨st.module_name, [st], none⟩] ∧
      (parse_document
          (streamRecordOf exStream).artifact.file).default_stream_keys = [] ∧
      st.module_name = (streamRecordOf exStream).name ∧
      st.stream_name = (streamRecordOf exStream).stream ∧
      st.version = (streamRecordOf exStream).version ∧
      st.context = (streamRecordOf exStream).context ∧
      st.arch = (streamRecordOf exStream).arch := by
  refine ⟨rfl, ?_⟩
  exact c2_isolation ["nodejs"] exIdx [streamRecordOf exStream]
    (streamRecordOf exStream) rfl (List.mem_singleton.mpr rfl)

/-- Claim C4: for every module resolved by extract_streams, the returned
records appear in the index's native stream order with no re-sorting, and
each record's artifacts sequence preserves the source order of the stream's
RPM-artifact list including duplicates. -/
theorem c4_order_preservation (names : List String) (idx : ModuleIndex)
    (h : ∀ n ∈ names, (get_module idx n).isSome = true) :
    parse_modulemd names idx =
      Except.ok
        (names.flatMap (fun n => (streams_of idx n).map streamRecordOf)) ∧
    ∀ s : ModuleStream, (streamRecordOf s).artifacts = s.rpm_artifacts := by
  refine ⟨?_, fun s => rfl⟩
  induction names with
  | nil => rfl
  | cons n rest ih =>
    have hn := h n (List.mem_cons_self n rest)
    cases hm : get_module idx n with
    | none => rw [hm] at hn; exact absurd hn (by simp)
    | some m =>
      simp only [parse_modulemd, hm]
      rw [ih (fun x hx => h x (List.mem_cons_of_mem n hx))]
      simp only [List.flatMap_cons, streams_of, hm, List.map_append]

/-- A module with three streams carrying duplicate artifacts. -/
def exStreamA : ModuleStream :=
  ⟨"httpd", "2.4", 1, some "a", some "x86_64",
    ["httpd-0:2.4-1.x86_64", "httpd-0:2.4-1.x86_64"], []⟩

/-- Second stream of the three-stream module. -/
def exStreamB : ModuleStream :=
  ⟨"httpd", "2.6", 2, some "b", some "x86_64", ["httpd-0:2.6-1.x86_64"], []⟩

/-- Third stream of the three-stream module. -/
def exStreamC : ModuleStream :=
  ⟨"httpd", "2.8", 3, some "c", some "x86_64", [], []⟩

/-- A concrete index with a three-stream module, for order preservation. -/
def exIdx4 : ModuleIndex :=
  ⟨[⟨"httpd", [exStreamA, exStreamB, exStreamC], none⟩], []⟩

/-- Witness for C4: streams S1, S2, S3 in index order yield records in that
order and artifacts are preserved verbatim, duplicates included. -/
theorem c4_witness :
    (∀ n ∈ ["httpd"], (get_module exIdx4 n).isSome = true) ∧
    parse_modulemd ["httpd"] exIdx4 =
      Except.ok
        [streamRecordOf exStreamA, streamRecordOf exStreamB,
          streamRecordOf exStreamC] ∧
    (streamRecordOf exStreamA).artifacts =
      ["httpd-0:2.4-1.x86_64", "httpd-0:2.4-1.x86_64"] := by
  refine ⟨by decide, ?_, rfl⟩
  have h := (c4_order_preservation ["httpd"] exIdx4 (by decide)).1
  exact h

/-- Claim C5: if some requested name does not resolve in the index, the
whole extract_streams call fails with a ModuleNotFound lookup failure and
returns no records. -/
theorem c5_module_not_found (names : List String) (idx : ModuleIndex)
    (h : ∃ n ∈ names, get_module idx n = none) :
    ∃ bad, bad ∈ names ∧ get_module idx bad = none ∧
      parse_modulemd names idx =
        Except.error (ExtractError.moduleNotFound bad) := by
  induction names with
  | nil =>
    obtain ⟨n, hn, _⟩ := h
    exact absurd hn (List.not_mem_nil n)
  | cons n rest ih =>
    cases hm : get_module idx n with
    | none =>
      exact ⟨n, List.mem_cons_self n rest, hm, by simp only [parse_modulemd, hm]⟩
    | some m =>
      obtain ⟨x, hx, hxn⟩ := h
      have hxr : x ∈ rest := by
        cases List.mem_cons.mp hx with
        | inl he => rw [he, hm] at hxn; exact absurd hxn (by simp)
        | inr hr => exact hr
      obtain ⟨bad, hb1, hb2, hb3⟩ := ih ⟨x, hxr, hxn⟩
      refine ⟨bad, List.mem_cons_of_mem n hb1, hb2, ?_⟩
      simp only [parse_modulemd, hm, hb3]

/-- Witness for C5: the spec's failure scenario — requesting a module the
index does not hold fails the whole call with ModuleNotFound. -/
theorem c5_witness :
    (∃ n ∈ ["missing_module"], get_module exIdx n = none) ∧
    ∃ bad, bad ∈ ["missing_module"] ∧ get_module exIdx bad = none ∧
      parse_modulemd ["missing_module"] exIdx =
        Except.error (ExtractError.moduleNotFound bad) := by
  refine ⟨⟨"missing_module", List.mem_singleton.mpr rfl, by decide⟩, ?_⟩
  exact c5_module_not_found ["missing_module"] exIdx
    ⟨"missing_module", List.mem_singleton.mpr rfl, by decide⟩

/-- A concrete stream missing both of its nullable identity fields. -/
def exStream8 : ModuleStream := ⟨"nodejs", "10", 1, none, none, [], []⟩

/-- A concrete index holding the field-less stream. -/
def exIdx8 : ModuleIndex := ⟨[⟨"nodejs", [exStream8], none⟩], []⟩

/-- Counterexample to C8: a stream with missing context and arch identity
fields is extracted without any error — the call succeeds and the emitted
record carries the null fields, contradicting the claimed MalformedStream
abort. -/
theorem c8_counterexample :
    parse_modulemd ["nodejs"] exIdx8 = Except.ok [streamRecordOf exStream8] ∧
    (streamRecordOf exStream8).context = none ∧
    (streamRecordOf exStream8).arch = none :=
  ⟨rfl, rfl, rfl⟩

/-- Claim C8 as amended: extraction performs no identity-field validation;
for every resolved module the call succeeds, and each record copies the
stream's identity fields verbatim — a missing (null) context or arch is
emitted as a null field rather than raising any error. -/
theorem c8_amended_no_validation (n : String) (idx : ModuleIndex)
    (m : MmdModule) (h : get_module idx n = some m) :
    parse_modulemd [n] idx =
      Except.ok ((get_all_streams m).map streamRecordOf) ∧
    ∀ s : ModuleStream,
      (streamRecordOf s).name = s.module_name ∧
      (streamRecordOf s).stream = s.stream_name ∧
      (streamRecordOf s).version = s.version ∧
      (streamRecordOf s).context = s.context ∧
      (streamRecordOf s).arch = s.arch := by
  refine ⟨?_, fun s => ⟨rfl, rfl, rfl, rfl, rfl⟩⟩
  simp only [parse_modulemd, h, List.append_nil]

/-- Witness for the amended C8, at the concrete stream with null context
and arch. -/
theorem c8_amended_witness :
    get_module exIdx8 "nodejs" = some ⟨"nodejs", [exStream8], none⟩ ∧
    parse_modulemd ["nodejs"] exIdx8 =
      Except.ok
        ((get_all_streams ⟨"nodejs", [exStream8], none⟩).map streamRecordOf) ∧
    ∀ s : ModuleStream,
      (streamRecordOf s).name = s.module_name ∧
      (streamRecordOf s).stream = s.stream_name ∧
      (streamRecordOf s).version = s.version ∧
      (streamRecordOf s).context = s.context ∧
      (streamRecordOf s).arch = s.arch := by
  refine ⟨by decide, ?_⟩
  exact c8_amended_no_validation "nodejs" exIdx8 ⟨"nodejs", [exStream8], none⟩
    (by decide)

lemma mem_parse_defaults_from (keys : List String) (idx : ModuleIndex) :
    ∀ rs : List DefaultRecord, parse_defaults_from keys idx = Except.ok rs →
      ∀ r ∈ rs, ∃ n m d, n ∈ keys ∧ get_module idx n = some m ∧
        get_defaults m = some d ∧ r = defaultRecordOf m d := by
  induction keys with
  | nil =>
    intro rs h r hr
    simp only [parse_defaults_from] at h
    rw [← Except.ok.inj h] at hr
    exact absurd hr (List.not_mem_nil r)
  | cons n rest ih =>
    intro rs h r hr
    simp only [parse_defaults_from] at h
    cases hm : get_module idx n with
    | none => rw [hm] at h; exact absurd h (by simp)
    | some m =>
      simp only [hm] at h
      cases hd : get_defaults m with
      | none =>
        simp only [hd] at h
        obtain ⟨x, m', d', hx, hm', hd', hr'⟩ := ih rs h r hr
        exact ⟨x, m', d', List.mem_cons_of_mem n hx, hm', hd', hr'⟩
      | some d =>
        simp only [hd] at h
        cases hp : parse_defaults_from rest idx with
        | error e => rw [hp] at h; exact absurd h (by simp)
        | ok tail =>
          rw [hp] at h
          rw [← Except.ok.inj h] at hr
          cases List.mem_cons.mp hr with
          | inl he => exact ⟨n, m, d, List.mem_cons_self n rest, hm, hd, he⟩
          | inr hmem =>
            obtain ⟨x, m', d', hx, hm', hd', hr'⟩ := ih tail hp r hmem
            exact ⟨x, m', d', List.mem_cons_of_mem n hx, hm', hd', hr'⟩

/-- Claim C3: every DefaultRecord's digest is the content digest of its
canonical document bytes — a pure function of those bytes, reproducible
independently of the storage collaborator. -/
theorem c3_digest_pure_function (idx : ModuleIndex) (rs : List DefaultRecord)
    (r : DefaultRecord) (h : parse_defaults idx = Except.ok rs) (hr : r ∈ rs) :
    r.digest = sha256_of r.artifact.file := by
  obtain ⟨n, m, d, _, _, _, rfl⟩ :=
    mem_parse_defaults_from (get_default_streams idx) idx rs h r hr
  rfl

/-- A concrete defaults declaration with profiles on two streams. -/
def exDefaults : Defaults :=
  ⟨"nodejs", "12",
    [("10", [("legacy", ["npm-legacy"])]), ("12", [("common", ["npm"])])]⟩

/-- A concrete module carrying the defaults declaration. -/
def exModuleD : MmdModule := ⟨"nodejs", [], some exDefaults⟩

/-- A concrete index whose default-stream keys name the module. -/
def exIdxD : ModuleIndex := ⟨[exModuleD], ["nodejs"]⟩

/-- The concrete emitted default record. -/
def exDefRecord : DefaultRecord := defaultRecordOf exModuleD exDefaults

/-- Witness for C3 at the concrete defaults index. -/
theorem c3_witness :
    parse_defaults exIdxD = Except.ok [exDefRecord] ∧
    exDefRecord.digest = sha256_of exDefRecord.artifact.file :=
  ⟨rfl, c3_digest_pure_function exIdxD [exDefRecord] exDefRecord rfl
    (List.mem_singleton.mpr rfl)⟩

lemma parse_defaults_from_eq (idx : ModuleIndex) (keys : List String)
    (h : ∀ n ∈ keys, (get_module idx n).isSome = true) :
    parse_defaults_from keys idx =
      Except.ok (keys.filterMap (defaultRecordFor idx)) := by
  induction keys with
  | nil => rfl
  | cons n rest ih =>
    have hn := h n (List.mem_cons_self n rest)
    cases hm : get_module idx n with
    | none => rw [hm] at hn; exact absurd hn (by simp)
    | some m =>
      cases hd : get_defaults m with
      | none =>
        simp only [parse_defaults_from, hm, hd]
        rw [ih (fun x hx => h x (List.mem_cons_of_mem n hx))]
        simp [List.filterMap_cons, defaultRecordFor, hm, hd]
      | some d =>
        simp only [parse_defaults_from, hm, hd]
        rw [ih (fun x hx => h x (List.mem_cons_of_mem n hx))]
        simp [List.filterMap_cons, defaultRecordFor, hm, hd]

/-- Claim C6: extract_defaults visits exactly the module names the index
reports as having a default-stream declaration; modules outside that key
set contribute nothing, and a visited module whose defaults object is falsy
is skipped silently, contributing no record and raising no error. -/
theorem c6_defaults_enumeration (idx : ModuleIndex)
    (h : ∀ n ∈ get_default_streams idx, (get_module idx n).isSome = true) :
    parse_defaults idx =
      Except.ok ((get_default_streams idx).filterMap (defaultRecordFor idx)) ∧
    ∀ n m, get_module idx n = some m → get_defaults m = none →
      defaultRecordFor idx n = none := by
  refine ⟨parse_defaults_from_eq idx (get_default_streams idx) h, ?_⟩
  intro n m hm hd
  simp [defaultRecordFor, hm, hd]

/-- A module present in the index, listed among the default-stream keys,
but whose defaults object is falsy. -/
def exModuleNoDef : MmdModule := ⟨"httpd", [], none⟩

/-- An index with one module emitting a default record, one visited module
skipped for its falsy defaults, and a third module outside the key set. -/
def exIdx6 : ModuleIndex :=
  ⟨[exModuleD, exModuleNoDef, ⟨"perl", [], none⟩], ["nodejs", "httpd"]⟩

/-- Witness for C6: on the concrete index only the nodejs record is
emitted; httpd (falsy defaults) and perl (not a key) contribute nothing. -/
theorem c6_witness :
    (∀ n ∈ get_default_streams exIdx6, (get_module exIdx6 n).isSome = true) ∧
    parse_defaults exIdx6 =
      Except.ok
        ((get_default_streams exIdx6).filterMap (defaultRecordFor exIdx6)) ∧
    (∀ n m, get_module exIdx6 n = some m → get_defaults m = none →
      defaultRecordFor exIdx6 n = none) ∧
    parse_defaults exIdx6 = Except.ok [defaultRecordOf exModuleD exDefaults] := by
  have h := c6_defaults_enumeration exIdx6 (by decide)
  exact ⟨by decide, h.1, h.2, rfl⟩

lemma get_module_name_eq (idx : ModuleIndex) (n : String) (m : MmdModule)
    (h : get_module idx n = some m) : get_module_name m = n := by
  have hp :=
    @List.find?_some MmdModule (fun mm => mm.name == n) m idx.modules h
  exact eq_of_beq hp

/-- Claim C7: every DefaultRecord's profiles mapping is exactly the
per-profile default package-name lists that the defaults declaration of the
record's own module — the module the index resolves for the record's module
name — declares for its chosen default stream; profiles declared for other
streams of that module are invisible. -/
theorem c7_profiles_scoped (idx : ModuleIndex) (rs : List DefaultRecord)
    (r : DefaultRecord) (h : parse_defaults idx = Except.ok rs) (hr : r ∈ rs) :
    ∃ m d, get_module idx r.module = some m ∧ get_defaults m = some d ∧
      r.module ∈ get_default_streams idx ∧
      r.stream = get_default_stream d ∧
      r.profiles = get_default_profiles_for_stream d (get_default_stream d) := by
  obtain ⟨n, m, d, hn, hm, hd, rfl⟩ :=
    mem_parse_defaults_from (get_default_streams idx) idx rs h r hr
  have hname : (defaultRecordOf m d).module = n := get_module_name_eq idx n m hm
  refine ⟨m, d, ?_, hd, ?_, rfl, rfl⟩
  · rw [hname]
    exact hm
  · rw [hname]
    exact hn

/-- Witness for C7: on the concrete index, the record's profiles are
exactly those its own module's defaults declaration gives for default
stream 12 — the profiles declared for stream 10 do not appear. -/
theorem c7_witness :
    parse_defaults exIdxD = Except.ok [exDefRecord] ∧
    exDefRecord.profiles = [("common", ["npm"])] ∧
    ∃ m d, get_module exIdxD exDefRecord.module = some m ∧
      get_defaults m = some d ∧
      exDefRecord.module ∈ get_default_streams exIdxD ∧
      exDefRecord.stream = get_default_stream d ∧
      exDefRecord.profiles =
        get_default_profiles_for_stream d (get_default_stream d) :=
  ⟨rfl, rfl, c7_profiles_scoped exIdxD [exDefRecord] exDefRecord rfl
    (List.mem_singleton.mpr rfl)⟩

/-- Claim C9: digest determinism — any two DefaultRecords whose canonical
document bytes are byte-identical have identical digests, and re-running
extract_defaults on an unchanged index yields identical digests. -/
theorem c9_digest_determinism (idx1 idx2 : ModuleIndex)
    (rs1 rs2 : List DefaultRecord) (r1 r2 : DefaultRecord)
    (h1 : parse_defaults idx1 = Except.ok rs1) (m1 : r1 ∈ rs1)
    (h2 : parse_defaults idx2 = Except.ok rs2) (m2 : r2 ∈ rs2)
    (hb : r1.artifact.file = r2.artifact.file) :
    r1.digest = r2.digest ∧
    ∀ rs rs' : List DefaultRecord, parse_defaults idx1 = Except.ok rs →
      parse_defaults idx1 = Except.ok rs' →
      rs.map (fun rr => rr.digest) = rs'.map (fun rr => rr.digest) := by
  constructor
  · obtain ⟨n, m, d, _, _, _, rfl⟩ :=
      mem_parse_defaults_from (get_default_streams idx1) idx1 rs1 h1 r1 m1
    obtain ⟨n', m', d', _, _, _, rfl⟩ :=
      mem_parse_defaults_from (get_default_streams idx2) idx2 rs2 h2 r2 m2
    have e1 : (defaultRecordOf m d).digest =
        sha256_of (defaultRecordOf m d).artifact.file := rfl
    have e2 : (defaultRecordOf m' d').digest =
        sha256_of (defaultRecordOf m' d').artifact.file := rfl
    rw [e1, e2, hb]
  · intro rs rs' ha hb'
    rw [Except.ok.inj (ha.symm.trans hb')]

/-- Witness for C9 at the concrete defaults index, runs compared pairwise
and record-wise. -/
theorem c9_witness :
    exDefRecord.digest = exDefRecord.digest ∧
    ∀ rs rs' : List DefaultRecord, parse_defaults exIdxD = Except.ok rs →
      parse_defaults exIdxD = Except.ok rs' →
      rs.map (fun rr => rr.digest) = rs'.map (fun rr => rr.digest) :=
  c9_digest_determinism exIdxD exIdxD [exDefRecord] [exDefRecord]
    exDefRecord exDefRecord rfl (List.mem_singleton.mpr rfl) rfl
    (List.mem_singleton.mpr rfl) rfl

/-- Claim C10: for every DefaultRecord returned by extract_defaults, the
digest field equals the sha256 digest of the artifact reference attached to
that same record. -/
theorem c10_digest_matches_artifact (idx : ModuleIndex)
    (rs : List DefaultRecord) (r : DefaultRecord)
    (h : parse_defaults idx = Except.ok rs) (hr : r ∈ rs) :
    r.digest = r.artifact.sha256 := by
  obtain ⟨n, m, d, _, _, _, rfl⟩ :=
    mem_parse_defaults_from (get_default_streams idx) idx rs h r hr
  rfl

/-- Witness for C10 at the concrete defaults index. -/
theorem c10_witness :
    parse_defaults exIdxD = Except.ok [exDefRecord] ∧
    exDefRecord.digest = exDefRecord.artifact.sha256 :=
  ⟨rfl, c10_digest_matches_artifact exIdxD [exDefRecord] exDefRecord rfl
    (List.mem_singleton.mpr rfl)⟩
